import Mathlib

/-!
# Verification of the Go sources

Two fragments are embedded:

* `sqli.go` and `sqli_7.go`: three HTTP handlers that build a SQL statement
  from a query parameter and hand it to `db.Exec`;
* `channel_access.go`: `NewGrpcServer`, which creates a gRPC server, registers
  a health-check implementation on it and wraps it in `GrpcServer`.

Go effects are made explicit: a handler maps the state of the world before the
call to a completion (normal return or panic) and the state afterwards.
-/

/-! ## Shared Go vocabulary -/

/-- A Go `error` value that is not nil; a possibly-nil `error` is `Option GoError`. -/
structure GoError where
  msg : String
deriving DecidableEq, Repr

namespace url

/-- The type `url.Values`, a `map[string][]string`: each key is bound to the
list of values given for it (the first binding of a key is the map entry). -/
structure Values where
  entries : List (String × List String)
deriving Repr

/-- `Values.Get`: the first value associated with `key`, or the empty string
when the key has no value. -/
def Values.Get (v : Values) (key : String) : String :=
  match v.entries.lookup key with
  | some (first :: _) => first
  | _ => ""

/-- The part of `url.URL` the handlers read: `Query()` yields the parsed query
parameters. -/
structure URL where
  Query : Values
deriving Repr

end url

namespace http

/-- The part of `http.Request` the handlers read. -/
structure Request where
  URL : url.URL
deriving Repr

end http

namespace sql

/-- The first component of what `Exec` returns; the handlers discard it. -/
structure Result where
  rowsAffected : Nat
deriving Repr

/-- A database as the handlers see it: what `Exec` answers to a statement.
One handler call performs at most one `Exec`, so the answer at that moment is
all that matters. -/
structure DB where
  Exec : String → Result × Option GoError

end sql

/-- Everything a handler call can change: the statements received by `db.Exec`
(oldest first), what has been written to the `http.ResponseWriter`, and the
variable `err`, which the handlers assign with `=` and do not declare. -/
structure World where
  execLog : List String
  response : List String
  err : Option GoError
deriving Repr

/-- How a handler call ends. -/
inductive Completion where
  | returned
  | panicked (v : GoError)
deriving DecidableEq, Repr

/-- The call `db.Exec(query)` as a state transformer: the statement is recorded
and the database's answer is returned. -/
def sql.DB.exec (db : sql.DB) (query : String) (σ : World) :
    (sql.Result × Option GoError) × World :=
  (db.Exec query, { σ with execLog := σ.execLog ++ [query] })

/-! ## `sqli.go` -/

namespace sqli

/-- The handler returned by `DeleteHandler(db)` in `sqli.go`, applied to a
request in world `σ`. -/
def DeleteHandler (db : sql.DB) (req : http.Request) (σ : World) : Completion × World :=
  let del := req.URL.Query.Get "del"
  let id := req.URL.Query.Get "Id"
  if del = "del" then
    let r := db.exec ("DELETE FROM table WHERE Id = " ++ id) σ
    let σ₁ : World := { r.2 with err := r.1.2 }
    match σ₁.err with
    | some e => (Completion.panicked e, σ₁)
    | none => (Completion.returned, σ₁)
  else
    (Completion.returned, σ)

end sqli

/-! ## `sqli_7.go` -/

namespace sqli_7

/-- The handler returned by `DeleteHandlerTest(db)` in `sqli_7.go`. -/
def DeleteHandlerTest (db : sql.DB) (req : http.Request) (σ : World) : Completion × World :=
  let del := req.URL.Query.Get "del"
  let id := req.URL.Query.Get "Id"
  if del = "del" then
    let r := db.exec ("DELETE FROM table WHERE Id = " ++ id) σ
    let σ₁ : World := { r.2 with err := r.1.2 }
    match σ₁.err with
    | some e => (Completion.panicked e, σ₁)
    | none => (Completion.returned, σ₁)
  else
    (Completion.returned, σ)

/-- The handler returned by `DeleteHandler(db)` in `sqli_7.go`. -/
def DeleteHandler (db : sql.DB) (req : http.Request) (σ : World) : Completion × World :=
  let del := req.URL.Query.Get "del"
  let id := req.URL.Query.Get "Id"
  if del = "del" then
    let r := db.exec ("DELETE FROM table WHERE Id = " ++ id) σ
    let σ₁ : World := { r.2 with err := r.1.2 }
    match σ₁.err with
    | some e => (Completion.panicked e, σ₁)
    | none => (Completion.returned, σ₁)
  else
    (Completion.returned, σ)

end sqli_7

/-! ## Sample inputs for the handlers -/

/-- A request whose query holds the given key/value pairs, one value per key. -/
def requestOf (params : List (String × String)) : http.Request :=
  ⟨⟨⟨params.map fun p => (p.1, [p.2])⟩⟩⟩

/-- A database whose `Exec` always succeeds. -/
def dbOk : sql.DB := ⟨fun _ => (⟨1⟩, none)⟩

/-- A database whose `Exec` always fails with the given error. -/
def dbFailing (e : GoError) : sql.DB := ⟨fun _ => (⟨0⟩, some e)⟩

/-- A world in which nothing has happened yet. -/
def World.fresh : World := ⟨[], [], none⟩

/-! ## The gRPC runtime used by `channel_access.go`

`channel_access.go` calls `grpc.NewServer` and
`grpc_health_v1.RegisterHealthServer` and embeds `*grpc.Server`; their code is
not part of the sources, so the runtime is modelled from the specification's
data model (sections 3 and 4.1). -/

namespace grpc

/-- Modelled from the spec: the construction-time error. The runtime behind
`grpc.NewServer` is missing from the sources. The spec gives two causes: a
service identifier registered twice, and an implementation lacking its
service's capabilities. The second cannot arise here, because the parameter type
of the registration already demands the capability set. `tableFrozen` is the
"freeze" of the spec's append-then-freeze dispatch table: the table is
read-only once the handle has left `Constructed`. -/
inductive ConfigurationError where
  | duplicateIdentifier (identifier : String)
  | tableFrozen (identifier : String)
deriving DecidableEq, Repr

/-- Modelled from the spec: the four lifecycle states of a server handle
(section 4.1); the runtime type `grpc.Server` is missing from the sources. -/
inductive State where
  | Constructed
  | Serving
  | Draining
  | Stopped
deriving DecidableEq, Repr

/-- Modelled from the spec: a bound network listener, the input of `serve`;
the listener type is missing from the sources. -/
structure Listener where
  address : String
deriving DecidableEq, Repr

/-- Modelled from the spec: the runtime object behind `*grpc.Server`, whose
declaration is missing from the sources. It owns the dispatch table (service
identifier paired with implementation, in registration order), the lifecycle
state, the listener it serves on, and the number of requests in flight. -/
structure Server (Impl : Type) where
  services : List (String × Impl)
  state : State
  listener : Option Listener
  inFlight : Nat
deriving Repr

/-- Modelled from the spec: `grpc.NewServer()`, missing from the sources. A new
runtime has an empty dispatch table, is not listening and serves nothing. -/
def NewServer (Impl : Type) : Server Impl :=
  { services := [], state := State.Constructed, listener := none, inFlight := 0 }

/-- Modelled from the spec: reachability by identifier, the read of the
dispatch table that routes a request to "the registered implementation
matching the requested service identifier"; missing from the sources. -/
def Server.lookup {Impl : Type} (s : Server Impl) (identifier : String) : Option Impl :=
  s.services.lookup identifier

/-- Modelled from the spec: registration of one (identifier, implementation)
pair, the operation behind `RegisterHealthServer`; missing from the sources.
"At most one implementation may be registered per identifier; registering a
duplicate identifier is a configuration error", and the table is appended to
only before it is frozen. -/
def Server.register {Impl : Type} (s : Server Impl) (identifier : String) (impl : Impl) :
    Except ConfigurationError (Server Impl) :=
  if s.state ≠ State.Constructed then
    Except.error (ConfigurationError.tableFrozen identifier)
  else if (s.lookup identifier).isSome then
    Except.error (ConfigurationError.duplicateIdentifier identifier)
  else
    Except.ok { s with services := s.services ++ [(identifier, impl)] }

/-- Modelled from the spec: what can happen to a handle after construction
(section 4.1); the runtime is missing from the sources. `serve`, `stop` and
`forceStop` are the lifecycle calls; `accept` and `complete` are a request
entering and leaving flight; `drained` is the moment "all in-flight work
completes" during a graceful drain. -/
inductive Op where
  | serve (l : Listener)
  | stop
  | forceStop
  | accept
  | complete
  | drained
deriving DecidableEq, Repr

/-- Modelled from the spec: the state machine
`Constructed → Serving → Draining → Stopped` of section 4.1, missing from the
sources. `serve` takes `Constructed` to `Serving`; `stop` takes `Serving` to
`Draining` and releases the listener; `Draining` becomes `Stopped` when all
in-flight work has completed; `forceStop` takes `Serving` or `Draining` to
`Stopped`, abandoning the requests in flight. Where the spec lists no
transition the handle is left as it is. -/
def Server.step {Impl : Type} (s : Server Impl) : Op → Server Impl
  | Op.serve l =>
      if s.state = State.Constructed then
        { s with state := State.Serving, listener := some l }
      else s
  | Op.stop =>
      if s.state = State.Serving then
        { s with state := State.Draining, listener := none }
      else s
  | Op.forceStop =>
      if s.state = State.Serving ∨ s.state = State.Draining then
        { s with state := State.Stopped, listener := none, inFlight := 0 }
      else s
  | Op.accept =>
      if s.state = State.Serving then { s with inFlight := s.inFlight + 1 } else s
  | Op.complete =>
      if s.state = State.Serving ∨ s.state = State.Draining then
        { s with inFlight := s.inFlight - 1 }
      else s
  | Op.drained =>
      if s.state = State.Draining ∧ s.inFlight = 0 then
        { s with state := State.Stopped }
      else s

/-- Modelled from the spec: a handle after a sequence of operations, oldest
first. -/
def Server.run {Impl : Type} (s : Server Impl) (ops : List Op) : Server Impl :=
  ops.foldl Server.step s

/-- Modelled from the spec: everything a holder of the handle can do with the
embedded runtime, which is missing from the sources: a lifecycle operation or
event, or an attempt to register one more pair. -/
inductive Action (Impl : Type) where
  | lifecycle (op : Op)
  | register (identifier : String) (impl : Impl)

/-- Modelled from the spec: the handle after one action. A registration that
is refused leaves the handle as it was. -/
def Server.act {Impl : Type} (s : Server Impl) : Action Impl → Server Impl
  | Action.lifecycle op => s.step op
  | Action.register identifier impl =>
      match s.register identifier impl with
      | Except.ok t => t
      | Except.error _ => s

/-- Modelled from the spec: the handle after a sequence of actions, oldest
first. -/
def Server.perform {Impl : Type} (s : Server Impl) (acts : List (Action Impl)) : Server Impl :=
  acts.foldl Server.act s

end grpc

namespace grpc_health_v1

/-- Modelled from the spec: the "one well-known service path" of the
health-check service (section 6); the constant is missing from the sources and
is given the name that goes with the package `grpc_health_v1`. -/
def healthServiceName : String := "grpc.health.v1.Health"

/-- Modelled from the spec: `RegisterHealthServer(s, srv)`, missing from the
sources: it registers `srv` on `s` under the health-check identifier. -/
def RegisterHealthServer {H : Type} (s : grpc.Server H) (srv : H) :
    Except grpc.ConfigurationError (grpc.Server H) :=
  s.register healthServiceName srv

end grpc_health_v1

/-! ## `channel_access.go` -/

namespace cronjob

/-- The struct `GrpcServer`: it embeds `*grpc.Server`, so the field `Server`
and every operation of the runtime are available on the handle. -/
structure GrpcServer (H : Type) where
  Server : grpc.Server H
deriving Repr

/-- The constructor `NewGrpcServer`: create the runtime, register the
health-check handler on it, return a pointer to the wrapping struct. The Go
result is a pointer, which `some` stands for; a failed registration ends the
construction. -/
def NewGrpcServer {H : Type} (healthCheckHandler : H) :
    Except grpc.ConfigurationError (Option (GrpcServer H)) := do
  let server := grpc.NewServer H
  let server ← grpc_health_v1.RegisterHealthServer server healthCheckHandler
  return some ⟨server⟩

end cronjob

/-! ## Sample inputs for the server handle -/

/-- A listener on a local port. -/
def sampleListener : grpc.Listener := ⟨"127.0.0.1:50051"⟩

/-- The handle `NewGrpcServer` builds for the implementation `h`. -/
def handleOf {H : Type} (h : H) : cronjob.GrpcServer H :=
  ⟨{ services := [(grpc_health_v1.healthServiceName, h)], state := grpc.State.Constructed,
     listener := none, inFlight := 0 }⟩

/-! ## Helper lemmas -/

/-- Appending to a fixed string is injective. -/
theorem string_append_cancel_left (a b c : String) (h : a ++ b = a ++ c) : b = c := by
  apply String.ext
  have hd := congrArg String.data h
  rw [String.data_append, String.data_append] at hd
  exact List.append_cancel_left hd

/-- A key without an entry reads as the empty string. -/
theorem Values_Get_absent (v : url.Values) (key : String)
    (h : v.entries.lookup key = none) : v.Get key = "" := by
  simp [url.Values.Get, h]

/-- On `del=del` the handler of `sqli.go` performs the `Exec` and ends according
to its error result. -/
theorem sqli_DeleteHandler_del (db : sql.DB) (req : http.Request) (σ : World)
    (h : req.URL.Query.Get "del" = "del") :
    sqli.DeleteHandler db req σ =
      (match (db.Exec ("DELETE FROM table WHERE Id = " ++ req.URL.Query.Get "Id")).2 with
        | some e => Completion.panicked e
        | none => Completion.returned,
       { execLog := σ.execLog ++ ["DELETE FROM table WHERE Id = " ++ req.URL.Query.Get "Id"],
         response := σ.response,
         err := (db.Exec ("DELETE FROM table WHERE Id = " ++ req.URL.Query.Get "Id")).2 }) := by
  simp only [sqli.DeleteHandler, h, if_true, sql.DB.exec]
  cases (db.Exec ("DELETE FROM table WHERE Id = " ++ req.URL.Query.Get "Id")).2 <;> rfl

/-- On `del=del` the handler `DeleteHandler` of `sqli_7.go` performs the `Exec`
and ends according to its error result. -/
theorem sqli_7_DeleteHandler_del (db : sql.DB) (req : http.Request) (σ : World)
    (h : req.URL.Query.Get "del" = "del") :
    sqli_7.DeleteHandler db req σ =
      (match (db.Exec ("DELETE FROM table WHERE Id = " ++ req.URL.Query.Get "Id")).2 with
        | some e => Completion.panicked e
        | none => Completion.returned,
       { execLog := σ.execLog ++ ["DELETE FROM table WHERE Id = " ++ req.URL.Query.Get "Id"],
         response := σ.response,
         err := (db.Exec ("DELETE FROM table WHERE Id = " ++ req.URL.Query.Get "Id")).2 }) := by
  simp only [sqli_7.DeleteHandler, h, if_true, sql.DB.exec]
  cases (db.Exec ("DELETE FROM table WHERE Id = " ++ req.URL.Query.Get "Id")).2 <;> rfl

/-- Without `del=del` the handler of `sqli.go` does nothing. -/
theorem sqli_DeleteHandler_skip (db : sql.DB) (req : http.Request) (σ : World)
    (h : req.URL.Query.Get "del" ≠ "del") :
    sqli.DeleteHandler db req σ = (Completion.returned, σ) := by
  simp [sqli.DeleteHandler, h]

/-- Without `del=del` the handler `DeleteHandler` of `sqli_7.go` does nothing. -/
theorem sqli_7_DeleteHandler_skip (db : sql.DB) (req : http.Request) (σ : World)
    (h : req.URL.Query.Get "del" ≠ "del") :
    sqli_7.DeleteHandler db req σ = (Completion.returned, σ) := by
  simp [sqli_7.DeleteHandler, h]

/-- Without `del=del` the handler `DeleteHandlerTest` of `sqli_7.go` does
nothing. -/
theorem sqli_7_DeleteHandlerTest_skip (db : sql.DB) (req : http.Request) (σ : World)
    (h : req.URL.Query.Get "del" ≠ "del") :
    sqli_7.DeleteHandlerTest db req σ = (Completion.returned, σ) := by
  simp [sqli_7.DeleteHandlerTest, h]

/-- Two logs that extend the same log by different statements differ. -/
theorem log_extension_ne (log : List String) (p a b : String) (h : a ≠ b) :
    log ++ [p ++ a] ≠ log ++ [p ++ b] := by
  intro heq
  have h1 : [p ++ a] = [p ++ b] := List.append_cancel_left heq
  have h2 : p ++ a = p ++ b := by simpa using h1
  exact h (string_append_cancel_left p a b h2)

/-- No operation of the lifecycle touches the dispatch table. -/
theorem Server_step_services {Impl : Type} (s : grpc.Server Impl) (op : grpc.Op) :
    (s.step op).services = s.services := by
  cases op <;> simp only [grpc.Server.step] <;> split <;> rfl

/-- A run of lifecycle operations leaves the dispatch table as it was. -/
theorem Server_run_services {Impl : Type} (ops : List grpc.Op) (s : grpc.Server Impl) :
    (s.run ops).services = s.services := by
  induction ops generalizing s with
  | nil => rfl
  | cons op rest ih =>
    show ((s.step op).run rest).services = s.services
    rw [ih, Server_step_services]

/-- A stopped handle stays stopped under every single operation. -/
theorem Server_step_stopped {Impl : Type} (s : grpc.Server Impl) (op : grpc.Op)
    (h : s.state = grpc.State.Stopped) : (s.step op).state = grpc.State.Stopped := by
  cases op <;> simp [grpc.Server.step, h]

/-- A stopped handle stays stopped under every run of operations. -/
theorem Server_run_stopped {Impl : Type} (ops : List grpc.Op) (s : grpc.Server Impl)
    (h : s.state = grpc.State.Stopped) : (s.run ops).state = grpc.State.Stopped := by
  induction ops generalizing s with
  | nil => exact h
  | cons op rest ih =>
    show ((s.step op).run rest).state = grpc.State.Stopped
    exact ih _ (Server_step_stopped s op h)

/-- Running one sequence after another is running their concatenation. -/
theorem Server_run_append {Impl : Type} (s : grpc.Server Impl) (pre post : List grpc.Op) :
    s.run (pre ++ post) = (s.run pre).run post := by
  simp [grpc.Server.run, List.foldl_append]

/-- The constructor returns the handle with the single health registration. -/
theorem NewGrpcServer_eq {H : Type} (h : H) :
    cronjob.NewGrpcServer h = Except.ok (some (handleOf h)) := rfl

/-- A registration that succeeds was made on a `Constructed` runtime under an
identifier not yet in the table, and appends the pair. -/
theorem Server_register_ok {Impl : Type} (s t : grpc.Server Impl) (identifier : String)
    (impl : Impl) (h : s.register identifier impl = Except.ok t) :
    s.state = grpc.State.Constructed
    ∧ t = { s with services := s.services ++ [(identifier, impl)] } := by
  unfold grpc.Server.register at h
  split at h
  · cases h
  · split at h
    · cases h
    · rename_i hs _
      injection h with h
      exact ⟨not_not.mp hs, h.symm⟩

/-- Once the runtime has left `Constructed`, every registration is refused. -/
theorem Server_register_frozen {Impl : Type} (s : grpc.Server Impl) (identifier : String)
    (impl : Impl) (h : s.state ≠ grpc.State.Constructed) :
    s.register identifier impl =
      Except.error (grpc.ConfigurationError.tableFrozen identifier) := by
  simp [grpc.Server.register, h]

/-- An identifier found in a table is found in every extension of it, with the
same implementation. -/
theorem lookup_extends {Impl : Type} (table extra : List (String × Impl)) (identifier : String)
    (impl : Impl) (h : table.lookup identifier = some impl) :
    (table ++ extra).lookup identifier = some impl := by
  rw [List.lookup_append, h]
  rfl

/-- No action brings a runtime back to `Constructed`. -/
theorem Server_act_left {Impl : Type} (s : grpc.Server Impl) (a : grpc.Action Impl)
    (h : s.state ≠ grpc.State.Constructed) : (s.act a).state ≠ grpc.State.Constructed := by
  cases a with
  | lifecycle op =>
    cases op <;> simp only [grpc.Server.act, grpc.Server.step] <;> split <;> simp_all
  | register identifier impl =>
    simp only [grpc.Server.act, Server_register_frozen s identifier impl h]
    exact h

/-- Once the runtime has left `Constructed`, no action changes its table. -/
theorem Server_act_frozen {Impl : Type} (s : grpc.Server Impl) (a : grpc.Action Impl)
    (h : s.state ≠ grpc.State.Constructed) : (s.act a).services = s.services := by
  cases a with
  | lifecycle op => exact Server_step_services s op
  | register identifier impl =>
    simp only [grpc.Server.act, Server_register_frozen s identifier impl h]

/-- Once the runtime has left `Constructed`, no sequence of actions changes
its table. -/
theorem Server_perform_frozen {Impl : Type} (acts : List (grpc.Action Impl))
    (s : grpc.Server Impl) (h : s.state ≠ grpc.State.Constructed) :
    (s.perform acts).services = s.services := by
  induction acts generalizing s with
  | nil => rfl
  | cons a rest ih =>
    show ((s.act a).perform rest).services = s.services
    rw [ih _ (Server_act_left s a h), Server_act_frozen s a h]

/-- An action only ever appends to the table. -/
theorem Server_act_extends {Impl : Type} (s : grpc.Server Impl) (a : grpc.Action Impl) :
    ∃ extra, (s.act a).services = s.services ++ extra := by
  cases a with
  | lifecycle op => exact ⟨[], by rw [List.append_nil]; exact Server_step_services s op⟩
  | register identifier impl =>
    simp only [grpc.Server.act]
    cases hr : s.register identifier impl with
    | error e => exact ⟨[], by simp⟩
    | ok t =>
      obtain ⟨_, ht⟩ := Server_register_ok s t identifier impl hr
      exact ⟨[(identifier, impl)], by rw [ht]⟩

/-- A sequence of actions only ever appends to the table. -/
theorem Server_perform_extends {Impl : Type} (acts : List (grpc.Action Impl))
    (s : grpc.Server Impl) : ∃ extra, (s.perform acts).services = s.services ++ extra := by
  induction acts generalizing s with
  | nil => exact ⟨[], by simp [grpc.Server.perform]⟩
  | cons a rest ih =>
    obtain ⟨e₁, h₁⟩ := Server_act_extends s a
    obtain ⟨e₂, h₂⟩ := ih (s.act a)
    refine ⟨e₁ ++ e₂, ?_⟩
    show ((s.act a).perform rest).services = s.services ++ (e₁ ++ e₂)
    rw [h₂, h₁, List.append_assoc]

/-- Performing one sequence after another is performing their concatenation. -/
theorem Server_perform_append {Impl : Type} (s : grpc.Server Impl)
    (pre post : List (grpc.Action Impl)) :
    s.perform (pre ++ post) = (s.perform pre).perform post := by
  simp [grpc.Server.perform, List.foldl_append]

/-- What a handler does, given its behaviour with and without `del=del`: it
panics exactly when `del=del` and `Exec` reports an error, with that error, and
otherwise returns after the one `Exec` without touching the response. -/
theorem panic_contract (f : sql.DB → http.Request → World → Completion × World)
    (hdel : ∀ db req σ, req.URL.Query.Get "del" = "del" →
      f db req σ =
        (match (db.Exec ("DELETE FROM table WHERE Id = " ++ req.URL.Query.Get "Id")).2 with
          | some e => Completion.panicked e
          | none => Completion.returned,
         { execLog := σ.execLog ++ ["DELETE FROM table WHERE Id = " ++ req.URL.Query.Get "Id"],
           response := σ.response,
           err := (db.Exec ("DELETE FROM table WHERE Id = " ++ req.URL.Query.Get "Id")).2 }))
    (hskip : ∀ db req σ, req.URL.Query.Get "del" ≠ "del" → f db req σ = (Completion.returned, σ))
    (db : sql.DB) (req : http.Request) (σ : World) :
    ((∃ e, (f db req σ).1 = Completion.panicked e) ↔
        (req.URL.Query.Get "del" = "del" ∧
          (db.Exec ("DELETE FROM table WHERE Id = " ++ req.URL.Query.Get "Id")).2 ≠ none))
    ∧ (∀ e, (f db req σ).1 = Completion.panicked e →
        (db.Exec ("DELETE FROM table WHERE Id = " ++ req.URL.Query.Get "Id")).2 = some e)
    ∧ (req.URL.Query.Get "del" = "del" →
        (db.Exec ("DELETE FROM table WHERE Id = " ++ req.URL.Query.Get "Id")).2 = none →
        (f db req σ).1 = Completion.returned
        ∧ (f db req σ).2.execLog =
            σ.execLog ++ ["DELETE FROM table WHERE Id = " ++ req.URL.Query.Get "Id"]
        ∧ (f db req σ).2.response = σ.response) := by
  by_cases hd : req.URL.Query.Get "del" = "del"
  · rw [hdel db req σ hd]
    cases hx : (db.Exec ("DELETE FROM table WHERE Id = " ++ req.URL.Query.Get "Id")).2 with
    | none => simp [hd]
    | some e0 =>
      refine ⟨?_, ?_, ?_⟩
      · simp [hd]
      · intro e he
        simp only [Completion.panicked.injEq] at he
        rw [he]
      · intro _ hn
        cases hn
  · rw [hskip db req σ hd]
    simp [hd]

/-! ## The handlers of `sqli.go` and `sqli_7.go` -/

/-- C3: on a request with `del=del`, both `DeleteHandler`s pass to `db.Exec`
exactly one statement, the text `DELETE FROM table WHERE Id = ` followed by the
value of the `Id` parameter as it is; an absent `Id` gives the bare text; and two
such requests with different `Id` values issue different statements. -/
theorem DeleteHandler_statement_is_raw_Id (db : sql.DB) (r₁ r₂ : http.Request) (σ : World)
    (h₁ : r₁.URL.Query.Get "del" = "del") (h₂ : r₂.URL.Query.Get "del" = "del") :
    (sqli.DeleteHandler db r₁ σ).2.execLog =
        σ.execLog ++ ["DELETE FROM table WHERE Id = " ++ r₁.URL.Query.Get "Id"]
    ∧ (sqli_7.DeleteHandler db r₁ σ).2.execLog =
        σ.execLog ++ ["DELETE FROM table WHERE Id = " ++ r₁.URL.Query.Get "Id"]
    ∧ (r₁.URL.Query.entries.lookup "Id" = none →
        (sqli.DeleteHandler db r₁ σ).2.execLog = σ.execLog ++ ["DELETE FROM table WHERE Id = "]
        ∧ (sqli_7.DeleteHandler db r₁ σ).2.execLog =
            σ.execLog ++ ["DELETE FROM table WHERE Id = "])
    ∧ (r₁.URL.Query.Get "Id" ≠ r₂.URL.Query.Get "Id" →
        (sqli.DeleteHandler db r₁ σ).2.execLog ≠ (sqli.DeleteHandler db r₂ σ).2.execLog
        ∧ (sqli_7.DeleteHandler db r₁ σ).2.execLog ≠ (sqli_7.DeleteHandler db r₂ σ).2.execLog) := by
  rw [sqli_DeleteHandler_del db r₁ σ h₁, sqli_7_DeleteHandler_del db r₁ σ h₁,
    sqli_DeleteHandler_del db r₂ σ h₂, sqli_7_DeleteHandler_del db r₂ σ h₂]
  refine ⟨rfl, rfl, ?_, ?_⟩
  · intro habs
    rw [Values_Get_absent _ _ habs]
    exact ⟨rfl, rfl⟩
  · intro hne
    exact ⟨log_extension_ne _ _ _ _ hne, log_extension_ne _ _ _ _ hne⟩

/-- C3 at two requests with `del=del`, one with `Id=1` and one with
`Id=1 OR 1=1`, against a database that accepts everything. -/
theorem DeleteHandler_statement_is_raw_Id_witness :
    (requestOf [("del", "del"), ("Id", "1")]).URL.Query.Get "del" = "del"
    ∧ (requestOf [("del", "del"), ("Id", "1 OR 1=1")]).URL.Query.Get "del" = "del"
    ∧ (sqli.DeleteHandler dbOk (requestOf [("del", "del"), ("Id", "1 OR 1=1")])
          World.fresh).2.execLog = ["DELETE FROM table WHERE Id = 1 OR 1=1"]
    ∧ (sqli.DeleteHandler dbOk (requestOf [("del", "del"), ("Id", "1")]) World.fresh).2.execLog ≠
        (sqli.DeleteHandler dbOk (requestOf [("del", "del"), ("Id", "1 OR 1=1")])
          World.fresh).2.execLog :=
  ⟨by decide, by decide,
   (DeleteHandler_statement_is_raw_Id dbOk (requestOf [("del", "del"), ("Id", "1 OR 1=1")])
      (requestOf [("del", "del"), ("Id", "1")]) World.fresh (by decide) (by decide)).1,
   ((DeleteHandler_statement_is_raw_Id dbOk (requestOf [("del", "del"), ("Id", "1")])
      (requestOf [("del", "del"), ("Id", "1 OR 1=1")]) World.fresh (by decide) (by decide)).2.2.2
      (by decide)).1⟩

/-- C7: on a request whose `del` parameter is not exactly `del`, each of the
three handlers returns normally and leaves the world as it found it: no
statement reaches `db.Exec`, nothing is written to the response, `err` keeps its
value, and there is no panic, whatever `Id` is. -/
theorem handlers_do_nothing_without_del (db : sql.DB) (req : http.Request) (σ : World)
    (h : req.URL.Query.Get "del" ≠ "del") :
    (sqli.DeleteHandler db req σ = (Completion.returned, σ)
      ∧ sqli_7.DeleteHandlerTest db req σ = (Completion.returned, σ)
      ∧ sqli_7.DeleteHandler db req σ = (Completion.returned, σ))
    ∧ (sqli.DeleteHandler db req σ).2.execLog = σ.execLog
    ∧ (sqli_7.DeleteHandlerTest db req σ).2.execLog = σ.execLog
    ∧ (sqli.DeleteHandler db req σ).2.response = σ.response
    ∧ (sqli_7.DeleteHandlerTest db req σ).2.response = σ.response := by
  rw [sqli_DeleteHandler_skip db req σ h, sqli_7_DeleteHandlerTest_skip db req σ h,
    sqli_7_DeleteHandler_skip db req σ h]
  exact ⟨⟨rfl, rfl, rfl⟩, rfl, rfl, rfl, rfl⟩

/-- C7 at `del=DEL`, at an empty `del` and at an absent `del`, each with an
`Id` and a database that would fail. -/
theorem handlers_do_nothing_without_del_witness :
    ((requestOf [("del", "DEL"), ("Id", "3")]).URL.Query.Get "del" ≠ "del"
      ∧ sqli.DeleteHandler (dbFailing ⟨"boom"⟩) (requestOf [("del", "DEL"), ("Id", "3")])
          World.fresh = (Completion.returned, World.fresh))
    ∧ ((requestOf [("del", ""), ("Id", "3")]).URL.Query.Get "del" ≠ "del"
      ∧ sqli_7.DeleteHandlerTest (dbFailing ⟨"boom"⟩) (requestOf [("del", ""), ("Id", "3")])
          World.fresh = (Completion.returned, World.fresh))
    ∧ ((requestOf [("Id", "3")]).URL.Query.Get "del" ≠ "del"
      ∧ sqli_7.DeleteHandler (dbFailing ⟨"boom"⟩) (requestOf [("Id", "3")])
          World.fresh = (Completion.returned, World.fresh)) :=
  ⟨⟨by decide, (handlers_do_nothing_without_del (dbFailing ⟨"boom"⟩)
      (requestOf [("del", "DEL"), ("Id", "3")]) World.fresh (by decide)).1.1⟩,
   ⟨by decide, (handlers_do_nothing_without_del (dbFailing ⟨"boom"⟩)
      (requestOf [("del", ""), ("Id", "3")]) World.fresh (by decide)).1.2.1⟩,
   ⟨by decide, (handlers_do_nothing_without_del (dbFailing ⟨"boom"⟩)
      (requestOf [("Id", "3")]) World.fresh (by decide)).1.2.2⟩⟩

/-- C8: each `DeleteHandler` panics exactly when `del` equals `del` and
`db.Exec` returns an error, and then the panic value is that error; when
`del` equals `del` and `db.Exec` returns no error, the handler returns normally
with exactly one statement added to the `Exec` log and the response untouched. -/
theorem DeleteHandler_panics_iff_Exec_fails (db : sql.DB) (req : http.Request) (σ : World) :
    (((∃ e, (sqli.DeleteHandler db req σ).1 = Completion.panicked e) ↔
        (req.URL.Query.Get "del" = "del" ∧
          (db.Exec ("DELETE FROM table WHERE Id = " ++ req.URL.Query.Get "Id")).2 ≠ none))
      ∧ (∀ e, (sqli.DeleteHandler db req σ).1 = Completion.panicked e →
          (db.Exec ("DELETE FROM table WHERE Id = " ++ req.URL.Query.Get "Id")).2 = some e)
      ∧ (req.URL.Query.Get "del" = "del" →
          (db.Exec ("DELETE FROM table WHERE Id = " ++ req.URL.Query.Get "Id")).2 = none →
          (sqli.DeleteHandler db req σ).1 = Completion.returned
          ∧ (sqli.DeleteHandler db req σ).2.execLog =
              σ.execLog ++ ["DELETE FROM table WHERE Id = " ++ req.URL.Query.Get "Id"]
          ∧ (sqli.DeleteHandler db req σ).2.response = σ.response))
    ∧ (((∃ e, (sqli_7.DeleteHandler db req σ).1 = Completion.panicked e) ↔
        (req.URL.Query.Get "del" = "del" ∧
          (db.Exec ("DELETE FROM table WHERE Id = " ++ req.URL.Query.Get "Id")).2 ≠ none))
      ∧ (∀ e, (sqli_7.DeleteHandler db req σ).1 = Completion.panicked e →
          (db.Exec ("DELETE FROM table WHERE Id = " ++ req.URL.Query.Get "Id")).2 = some e)
      ∧ (req.URL.Query.Get "del" = "del" →
          (db.Exec ("DELETE FROM table WHERE Id = " ++ req.URL.Query.Get "Id")).2 = none →
          (sqli_7.DeleteHandler db req σ).1 = Completion.returned
          ∧ (sqli_7.DeleteHandler db req σ).2.execLog =
              σ.execLog ++ ["DELETE FROM table WHERE Id = " ++ req.URL.Query.Get "Id"]
          ∧ (sqli_7.DeleteHandler db req σ).2.response = σ.response)) :=
  ⟨panic_contract sqli.DeleteHandler sqli_DeleteHandler_del sqli_DeleteHandler_skip db req σ,
   panic_contract sqli_7.DeleteHandler sqli_7_DeleteHandler_del sqli_7_DeleteHandler_skip
     db req σ⟩

/-- C9: for every database, request and prior world, `DeleteHandlerTest` and
`DeleteHandler` of `sqli_7.go` and `DeleteHandler` of `sqli.go` end the same way
(return, or panic with the same error) and leave the same world, in particular
the same sequence of statements passed to `db.Exec`. -/
theorem three_handlers_agree (db : sql.DB) (req : http.Request) (σ : World) :
    sqli_7.DeleteHandlerTest db req σ = sqli.DeleteHandler db req σ
    ∧ sqli_7.DeleteHandler db req σ = sqli.DeleteHandler db req σ
    ∧ (sqli_7.DeleteHandlerTest db req σ).2.execLog = (sqli.DeleteHandler db req σ).2.execLog
    ∧ (sqli_7.DeleteHandler db req σ).2.execLog = (sqli.DeleteHandler db req σ).2.execLog
    ∧ (sqli_7.DeleteHandlerTest db req σ).1 = (sqli.DeleteHandler db req σ).1
    ∧ (sqli_7.DeleteHandler db req σ).1 = (sqli.DeleteHandler db req σ).1 :=
  ⟨rfl, rfl, rfl, rfl, rfl, rfl⟩

/-! ## The server handle of `channel_access.go` -/

/-- C1: for every health-check implementation `h`, `NewGrpcServer h` returns a
handle (neither an error nor a nil pointer), and in the handle's dispatch table
the health-check identifier is reachable and bound to `h` itself; the table
holds that registration and no other. -/
theorem NewGrpcServer_registers_health {H : Type} (h : H) :
    ∃ g : cronjob.GrpcServer H,
      cronjob.NewGrpcServer h = Except.ok (some g)
      ∧ g.Server.lookup grpc_health_v1.healthServiceName = some h
      ∧ g.Server.services = [(grpc_health_v1.healthServiceName, h)] := by
  refine ⟨handleOf h, rfl, ?_, rfl⟩
  simp [handleOf, grpc.Server.lookup, List.lookup]

/-- C4: for every health-check implementation `h`, the handle returned by
`NewGrpcServer h` is in the `Constructed` state, has no listener attached and no
request in flight, and differs from a freshly created runtime only in its
dispatch table. -/
theorem NewGrpcServer_acquires_nothing {H : Type} (h : H) :
    ∃ g : cronjob.GrpcServer H,
      cronjob.NewGrpcServer h = Except.ok (some g)
      ∧ g.Server.state = grpc.State.Constructed
      ∧ g.Server.listener = none
      ∧ g.Server.inFlight = 0
      ∧ g.Server =
          { grpc.NewServer H with services := [(grpc_health_v1.healthServiceName, h)] } :=
  ⟨handleOf h, rfl, rfl, rfl, rfl, rfl⟩

/-- C5, against the claim: the handle returned for the implementation
`health` still accepts a registration: registering `other` under a second
identifier on the handle's embedded server succeeds and yields a dispatch table
with two registrations where the constructor left one. -/
theorem handle_still_accepts_registration :
    ∃ (g : cronjob.GrpcServer String) (s : grpc.Server String),
      cronjob.NewGrpcServer "health" = Except.ok (some g)
      ∧ g.Server.register "acme.Billing" "other" = Except.ok s
      ∧ g.Server.services = [("grpc.health.v1.Health", "health")]
      ∧ s.services = [("grpc.health.v1.Health", "health"), ("acme.Billing", "other")]
      ∧ s.services ≠ g.Server.services :=
  ⟨handleOf "health",
   { (handleOf "health").Server with
      services := [("grpc.health.v1.Health", "health"), ("acme.Billing", "other")] },
   rfl, rfl, rfl, rfl, by decide⟩

/-- C5, amended: `NewGrpcServer h` populates the dispatch table with the one
health-check registration. No lifecycle operation ever changes the table.
Whatever is done with the handle, registrations are only appended: none is
replaced or removed, and the health-check identifier stays bound to `h`. Once
the handle has left `Constructed`, the table is read-only: every registration
attempt is refused and no sequence of lifecycle operations and registration
attempts changes the table. Only while the handle is still `Constructed` does
the registration operation of the embedded runtime add a pair, under an
identifier other than the health-check one. -/
theorem handle_registrations_frame {H : Type} (h : H) (g : cronjob.GrpcServer H)
    (hg : cronjob.NewGrpcServer h = Except.ok (some g)) (ops : List grpc.Op)
    (identifier : String) (impl : H) (hid : identifier ≠ grpc_health_v1.healthServiceName)
    (pre post : List (grpc.Action H))
    (hleft : (g.Server.perform pre).state ≠ grpc.State.Constructed) :
    g.Server.services = [(grpc_health_v1.healthServiceName, h)]
    ∧ (g.Server.run ops).services = g.Server.services
    ∧ (∃ extra, (g.Server.perform pre).services = g.Server.services ++ extra)
    ∧ (g.Server.perform pre).lookup grpc_health_v1.healthServiceName = some h
    ∧ (g.Server.perform (pre ++ post)).services = (g.Server.perform pre).services
    ∧ (g.Server.perform pre).register identifier impl =
        Except.error (grpc.ConfigurationError.tableFrozen identifier)
    ∧ g.Server.register identifier impl =
        Except.ok { g.Server with services := g.Server.services ++ [(identifier, impl)] } := by
  have hg2 : g = handleOf h := by
    rw [NewGrpcServer_eq] at hg
    injection hg with hg1
    injection hg1 with hg3
    exact hg3.symm
  have hb : (identifier == grpc_health_v1.healthServiceName) = false := by
    simpa using hid
  obtain ⟨extra, hex⟩ := Server_perform_extends pre g.Server
  have hlook : g.Server.services.lookup grpc_health_v1.healthServiceName = some h := by
    rw [hg2]
    simp [handleOf, List.lookup]
  refine ⟨by rw [hg2]; rfl, Server_run_services ops _, ⟨extra, hex⟩, ?_, ?_,
    Server_register_frozen _ identifier impl hleft, ?_⟩
  · show (g.Server.perform pre).services.lookup grpc_health_v1.healthServiceName = some h
    rw [hex]
    exact lookup_extends _ _ _ _ hlook
  · rw [Server_perform_append]
    exact Server_perform_frozen post _ hleft
  · rw [hg2]
    simp [grpc.Server.register, handleOf, grpc.Server.lookup, List.lookup, hb]

/-- C5 amended, at the implementation `health`: the handle is given a second
registration and then serves; after that a third registration attempt, a stop
and a forced stop leave the two registrations as they are. -/
theorem handle_registrations_frame_witness :
    cronjob.NewGrpcServer "health" = Except.ok (some (handleOf "health"))
    ∧ "acme.Billing" ≠ grpc_health_v1.healthServiceName
    ∧ ((handleOf "health").Server.perform
        [grpc.Action.register "acme.Billing" "other",
         grpc.Action.lifecycle (grpc.Op.serve sampleListener)]).state ≠ grpc.State.Constructed
    ∧ ((handleOf "health").Server.perform
        ([grpc.Action.register "acme.Billing" "other",
          grpc.Action.lifecycle (grpc.Op.serve sampleListener)] ++
         [grpc.Action.register "acme.Ledger" "third", grpc.Action.lifecycle grpc.Op.stop,
          grpc.Action.lifecycle grpc.Op.forceStop])).services =
        ((handleOf "health").Server.perform
          [grpc.Action.register "acme.Billing" "other",
           grpc.Action.lifecycle (grpc.Op.serve sampleListener)]).services
    ∧ ((handleOf "health").Server.perform
          [grpc.Action.register "acme.Billing" "other",
           grpc.Action.lifecycle (grpc.Op.serve sampleListener)]).services =
        [("grpc.health.v1.Health", "health"), ("acme.Billing", "other")] :=
  ⟨rfl, by decide, by decide,
   (handle_registrations_frame "health" (handleOf "health") rfl
      [grpc.Op.serve sampleListener, grpc.Op.accept, grpc.Op.stop]
      "acme.Billing" "other" (by decide)
      [grpc.Action.register "acme.Billing" "other",
       grpc.Action.lifecycle (grpc.Op.serve sampleListener)]
      [grpc.Action.register "acme.Ledger" "third", grpc.Action.lifecycle grpc.Op.stop,
       grpc.Action.lifecycle grpc.Op.forceStop] (by decide)).2.2.2.2.1,
   by decide⟩

/-- C6: the handle `g` returned by `NewGrpcServer h` starts `Constructed`;
`serve` makes it `Serving`, `stop` then makes it `Draining`, and the end of the
drain makes it `Stopped`. Once a sequence of operations has brought it to
`Stopped`, every further sequence of operations (serve, stop, forceStop, and
requests entering or leaving flight) leaves it `Stopped`: it is never
`Constructed` or `Serving` again. -/
theorem handle_is_single_use {H : Type} (h : H) (g : cronjob.GrpcServer H)
    (hg : cronjob.NewGrpcServer h = Except.ok (some g)) (l : grpc.Listener)
    (pre post : List grpc.Op) (hstopped : (g.Server.run pre).state = grpc.State.Stopped) :
    g.Server.state = grpc.State.Constructed
    ∧ (g.Server.run [grpc.Op.serve l]).state = grpc.State.Serving
    ∧ (g.Server.run [grpc.Op.serve l, grpc.Op.stop]).state = grpc.State.Draining
    ∧ (g.Server.run [grpc.Op.serve l, grpc.Op.stop, grpc.Op.drained]).state = grpc.State.Stopped
    ∧ (g.Server.run (pre ++ post)).state = grpc.State.Stopped
    ∧ (g.Server.run (pre ++ post)).state ≠ grpc.State.Constructed
    ∧ (g.Server.run (pre ++ post)).state ≠ grpc.State.Serving := by
  have hg2 : g = handleOf h := by
    rw [NewGrpcServer_eq] at hg
    injection hg with hg1
    injection hg1 with hg3
    exact hg3.symm
  have hfin : (g.Server.run (pre ++ post)).state = grpc.State.Stopped := by
    rw [Server_run_append]
    exact Server_run_stopped post _ hstopped
  refine ⟨?_, ?_, ?_, ?_, hfin, ?_, ?_⟩
  · rw [hg2]; rfl
  · rw [hg2]; rfl
  · rw [hg2]; rfl
  · rw [hg2]; rfl
  · rw [hfin]; decide
  · rw [hfin]; decide

/-- C6 at the implementation `health`: the handle is stopped by
serve / accept / forceStop, and a following serve / stop / forceStop / serve
leaves it `Stopped`. -/
theorem handle_is_single_use_witness :
    cronjob.NewGrpcServer "health" = Except.ok (some (handleOf "health"))
    ∧ ((handleOf "health").Server.run
        [grpc.Op.serve sampleListener, grpc.Op.accept, grpc.Op.forceStop]).state =
        grpc.State.Stopped
    ∧ ((handleOf "health").Server.run
        ([grpc.Op.serve sampleListener, grpc.Op.accept, grpc.Op.forceStop] ++
          [grpc.Op.serve sampleListener, grpc.Op.stop, grpc.Op.forceStop,
           grpc.Op.serve sampleListener])).state = grpc.State.Stopped :=
  ⟨rfl, by decide,
   (handle_is_single_use "health" (handleOf "health") rfl sampleListener
      [grpc.Op.serve sampleListener, grpc.Op.accept, grpc.Op.forceStop]
      [grpc.Op.serve sampleListener, grpc.Op.stop, grpc.Op.forceStop,
       grpc.Op.serve sampleListener] (by decide)).2.2.2.2.1⟩
